import Mathlib

/-!
Verification of the Smart City Issue Detection pipeline (`app.py`).

The Python source is shallowly embedded: a detection summary (a Python
dict from class name to count, iterated in insertion order) is a
`List (String × Nat)`; the SQLite `reports` table is a `List Report`;
route handlers become pure functions from a database value and request
data to a new database value plus the response data the route returns.
-/

/-- Substring test on character lists: `strStarts n h` holds when `n` is an
initial segment of `h`. -/
def strStarts : List Char → List Char → Bool
  | [], _ => true
  | _ :: _, [] => false
  | n :: ns, h :: hs => n == h && strStarts ns hs

/-- `strHas n h` is the Python `n in h` substring test: `n` occurs
contiguously somewhere in `h`. -/
def strHas (needle : List Char) : List Char → Bool
  | [] => needle.isEmpty
  | h :: t => strStarts needle (h :: t) || strHas needle t

/-- Python's `key.lower()` restricted to what `Char.toLower` covers (the
detector class names in this repository are ASCII). -/
def lowerChars (s : String) : List Char :=
  s.data.map Char.toLower

/-- `"pothole" in key.lower()` from `app.py` (`predict`, `fix_departments`,
`get_home_stats`, `history`). -/
def hasPothole (key : String) : Bool :=
  strHas "pothole".data (lowerChars key)

/-- `"garbage" in key.lower()` from `app.py`. -/
def hasGarbage (key : String) : Bool :=
  strHas "garbage".data (lowerChars key)

/-- The department loop of `predict` (app.py lines 328–335): start from
"General", scan the summary keys in stored order, and on the first key that
matches either rule assign the department and `break`; within one key
"pothole" is tested before "garbage". -/
def predictDept : List (String × Nat) → String
  | [] => "General"
  | (k, _) :: rest =>
    if hasPothole k then "Roads Department"
    else if hasGarbage k then "Department of Environment"
    else predictDept rest

/-- The department loop of `fix_departments` (app.py lines 629–638): the
sentinel `"unassigned"` (no key matched) is modelled as `none`. -/
def fixDept : List (String × Nat) → Option String
  | [] => none
  | (k, _) :: rest =>
    if hasPothole k then some "Roads Department"
    else if hasGarbage k then some "Department of Environment"
    else fixDept rest

/-- `sum(summary.values())` over a summary. -/
def totalIssues (summary : List (String × Nat)) : Nat :=
  (summary.map Prod.snd).sum

/-- Image severity thresholds from `predict` (app.py lines 306–312). -/
def severityImage (total : Nat) : String :=
  if total ≤ 1 then "Low"
  else if total ≤ 3 then "Medium"
  else "High"

/-- Video severity thresholds from `predict_video` (app.py lines 386–389). -/
def severityVideo (total : Nat) : String :=
  if total ≤ 5 then "Low"
  else if total ≤ 15 then "Medium"
  else "High"

/-- One row of the `reports` table, with the columns the verified routes
read or write.  `summary` is the JSON text column: `none` models a row
whose summary is NULL/empty or fails to decode (skipped by the scans),
`some s` a decoded dict.  Coordinates are REAL columns, modelled over `ℚ`.
The column `type` is `rtype` here (`type` is a Lean keyword). -/
structure Report where
  rid : Nat
  image_path : String
  summary : Option (List (String × Nat))
  severity : String
  latitude : Option ℚ
  longitude : Option ℚ
  feedback : Option String
  rtype : String
  department : String
deriving DecidableEq

/-- One coordinate form field of the `predict` request: absent or empty
(falsy in Python), a non-numeric string (`float` raises `ValueError`), or a
string parsing to a number `q`. -/
inductive FormField where
  | missing
  | invalid
  | value (q : ℚ)
deriving DecidableEq

/-- The numeric value a field contributes when no exception interferes. -/
def fieldVal : FormField → Option ℚ
  | .missing => none
  | .invalid => none
  | .value q => some q

/-- Does evaluating `float(field)` raise `ValueError`? -/
def fieldRaises : FormField → Bool
  | .invalid => true
  | _ => false

/-- Location parsing in `predict` (app.py lines 296–303): `latitude` is
converted first, then `longitude`; a `ValueError` from either conversion
resets both to `None`. -/
def parseLocation (la lo : FormField) : Option ℚ × Option ℚ :=
  if fieldRaises la then (none, none)
  else if fieldRaises lo then (none, none)
  else (fieldVal la, fieldVal lo)

/-- The row `predict` inserts (app.py lines 337–350): image kind, severity
from the image thresholds, department from the inline loop, coordinates
from `parseLocation`. -/
def mkImageReport (rid : Nat) (path : String) (summary : List (String × Nat))
    (la lo : FormField) : Report :=
  { rid := rid
    image_path := path
    summary := some summary
    severity := severityImage (totalIssues summary)
    latitude := (parseLocation la lo).1
    longitude := (parseLocation la lo).2
    feedback := none
    rtype := "image"
    department := predictDept summary }

/-- The row `predict_video` inserts (app.py lines 398–409): video kind, no
coordinates, and no `department` in the column list, so the row takes the
column's default "General". -/
def mkVideoReport (rid : Nat) (path : String) (summary : List (String × Nat)) : Report :=
  { rid := rid
    image_path := path
    summary := some summary
    severity := severityVideo (totalIssues summary)
    latitude := none
    longitude := none
    feedback := none
    rtype := "video"
    department := "General" }

/-- Python truthiness of `report_id` read from the request JSON: `None` and
`0` are falsy. -/
def ridTruthy : Option Nat → Bool
  | none => false
  | some r => !(r == 0)

/-- `feedback_value in ("correct", "incorrect")`. -/
def validFeedback (vo : Option String) : Bool :=
  vo == some "correct" || vo == some "incorrect"

/-- Effect of `UPDATE reports SET feedback = v WHERE id = rid` on one row. -/
def setFeedback (v : String) (rid : Nat) (r : Report) : Report :=
  if r.rid = rid then { r with feedback := some v } else r

/-- The `/feedback` route (app.py lines 455–476) on a database value: the
second component is `true` for the 200 "feedback saved" response and
`false` for the 400 "Invalid feedback" response. -/
def feedbackRoute (db : List Report) (rido : Option Nat) (vo : Option String) :
    List Report × Bool :=
  if ridTruthy rido && validFeedback vo then
    (db.map (setFeedback (vo.getD "") (rido.getD 0)), true)
  else (db, false)

/-- One iteration of the `fix_departments` loop (app.py lines 623–645) on a
row: rows with a falsy or undecodable summary are skipped; otherwise the
department is recomputed and, when some key matched (`new_dept` left the
sentinel), the row is updated and counted. -/
def fixRow (r : Report) : Report × Nat :=
  match r.summary with
  | none => (r, 0)
  | some s =>
    match fixDept s with
    | none => (r, 0)
    | some d => ({ r with department := d }, 1)

/-- The `/fix-departments` route (app.py lines 613–649): every row is
rescanned; returns the updated table and the reported `updated_count`. -/
def fix_departments (db : List Report) : List Report × Nat :=
  (db.map (fun r => (fixRow r).1), (db.map (fun r => (fixRow r).2)).sum)

/-- A concrete stored row whose summary holds one pothole detection and
whose department still holds the column default. -/
def potholeRow : Report :=
  { rid := 1
    image_path := "p.png"
    summary := some [("pothole", 1)]
    severity := "Low"
    latitude := none
    longitude := none
    feedback := none
    rtype := "image"
    department := "General" }

example : (fix_departments [potholeRow]).2 = 1 := by decide
example : (fix_departments [potholeRow]).1.map Report.department = ["Roads Department"] := by decide

example : parseLocation (.value 5) .missing = (some 5, none) := by decide
example : parseLocation (.value 5) .invalid = (none, none) := by decide
example : feedbackRoute [] (some 1) (some "correct") = ([], true) := by decide

/-- `summary[class_name] = summary.get(class_name, 0) + 1` on a Python dict
kept as an insertion-ordered association list: the first entry with the key
is bumped, a new key is appended at the end. -/
def addDetection (summary : List (String × Nat)) (c : String) : List (String × Nat) :=
  match summary with
  | [] => [(c, 1)]
  | (k, v) :: rest =>
    if k = c then (k, v + 1) :: rest else (k, v) :: addDetection rest c

/-- Folding one frame's detections (its class names, in box order) into a
running summary — the inner `for cls in result.boxes.cls` loop. -/
def addFrame (summary : List (String × Nat)) (dets : List String) : List (String × Nat) :=
  dets.foldl addDetection summary

/-- `summary.get(k, 0)`: the count stored for key `k`, `0` when absent. -/
def lookupCount (summary : List (String × Nat)) (k : String) : Nat :=
  match summary with
  | [] => 0
  | (k1, v) :: rest => if k1 = k then v else lookupCount rest k

/-- Pair each element of a list with its position, starting at `i` — the
`frame_count` counter of the video loop. -/
def withIdx (i : Nat) : List α → List (Nat × α)
  | [] => []
  | a :: l => (i, a) :: withIdx (i + 1) l

/-- The frames `process_video_frames` runs inference on: a video is a list
of decoded frames, each abstracted to the detector's output on it (the list
of detected class names); `fps = int(cap.get(CAP_PROP_FPS)) or 30` makes the
stride 30 when the reported rate is 0, and the loop keeps the frames whose
`frame_count` is a multiple of the stride. -/
def sampledFrames (fps : Nat) (frames : List (List String)) : List (List String) :=
  let interval := if fps = 0 then 30 else fps
  ((withIdx 0 frames).filter (fun p => p.1 % interval == 0)).map Prod.snd

/-- Positions of the qualifying sampled frames: those with at least one
detection, in processing order. -/
def qualIdx : List (Nat × List String) → List Nat
  | [] => []
  | (i, dets) :: rest => if dets = [] then qualIdx rest else i :: qualIdx rest

/-- The main loop of `process_video_frames` (app.py lines 229–263) over the
already-sampled frames, each paired with its position: every detection of
every sampled frame goes into `total`, and a frame with a detection is
recorded as a keyframe only while fewer than `max_saved_frames = 10` have
been saved.  A saved keyframe is identified by the position of its sampled
frame; the on-disk filename (timestamp plus save ordinal) is rendered from
that position by `framePath`. -/
def processSampled : List (Nat × List String) → List (String × Nat) → List Nat → Nat →
    List (String × Nat) × List Nat
  | [], total, keys, _ => (total, keys)
  | (i, dets) :: rest, total, keys, saved =>
    if dets ≠ [] ∧ saved < 10 then
      processSampled rest (addFrame total dets) (keys ++ [i]) (saved + 1)
    else
      processSampled rest (addFrame total dets) keys saved

/-- The storage path of the keyframe saved for sampled frame `i`
(`static/reports/video_frame_<timestamp>_<ordinal>.jpg`, with the
timestamp-and-ordinal pair abstracted to the frame position, which also
increases along the video). -/
def framePath (i : Nat) : String :=
  "static/reports/video_frame_" ++ toString i ++ ".jpg"

/-- `process_video_frames` (app.py lines 207–266): returns the aggregate
summary over every sampled frame and the saved keyframes (as sampled-frame
positions). -/
def process_video_frames (fps : Nat) (frames : List (List String)) :
    List (String × Nat) × List Nat :=
  processSampled (withIdx 0 (sampledFrames fps frames)) [] [] 0

/-- The `/predict-video` route (app.py lines 363–420) after processing: a
video report row is inserted only when `key_frames` is non-empty, with the
first keyframe as its `image_path`; the second component is the `report_id`
the rendered page receives (`None` when nothing was inserted). -/
def predict_video (db : List Report) (nextId fps : Nat) (frames : List (List String)) :
    List Report × Option Nat :=
  match (process_video_frames fps frames).2 with
  | [] => (db, none)
  | k0 :: _ =>
    (db ++ [mkVideoReport nextId (framePath k0) (process_video_frames fps frames).1],
      some nextId)

/-- Python truthiness of a REAL column value: `None` and `0.0` are falsy. -/
def optTruthy : Option ℚ → Bool
  | none => false
  | some q => !(q == 0)

/-- `0.5 if severity == "Low" else 1.0 if severity == "Medium" else 2.0`
(app.py line 547). -/
def heatWeight (severity : String) : ℚ :=
  if severity = "Low" then 1/2
  else if severity = "Medium" then 1
  else 2

/-- One iteration of the heatmap accumulation of `history` (app.py lines
546–548): a point is appended when the row passes the
`if latitude and longitude` test. -/
def heatStep (acc : List (ℚ × ℚ × ℚ)) (r : Report) : List (ℚ × ℚ × ℚ) :=
  if optTruthy r.latitude && optTruthy r.longitude then
    acc ++ [(r.latitude.getD 0, r.longitude.getD 0, heatWeight r.severity)]
  else acc

/-- The heatmap point list `history` builds over all rows. -/
def heatmap_points (rows : List Report) : List (ℚ × ℚ × ℚ) :=
  rows.foldl heatStep []

/-- The point a single report contributes to the heatmap, if any. -/
def heatPoint (r : Report) : Option (ℚ × ℚ × ℚ) :=
  if optTruthy r.latitude && optTruthy r.longitude then
    some (r.latitude.getD 0, r.longitude.getD 0, heatWeight r.severity)
  else none

/-- The per-summary tally of `get_home_stats` (app.py lines 138–142):
"pothole" is tested before "garbage" on each key.  The accumulator is
`(total_potholes, total_garbage)`. -/
def homeTally (acc : Nat × Nat) (s : List (String × Nat)) : Nat × Nat :=
  s.foldl (fun a kv =>
    if hasPothole kv.1 then (a.1 + kv.2, a.2)
    else if hasGarbage kv.1 then (a.1, a.2 + kv.2)
    else a) acc

/-- `get_home_stats` (app.py lines 134–144) over the stored summaries:
a NULL/undecodable summary is skipped.  Returns
`(total_potholes, total_garbage)`. -/
def get_home_stats (rows : List (Option (List (String × Nat)))) : Nat × Nat :=
  rows.foldl (fun acc so =>
    match so with
    | none => acc
    | some s => homeTally acc s) (0, 0)

/-- The per-summary tally of `history` (app.py lines 528–532): "garbage" is
tested before "pothole" on each key.  The accumulator is
`(total_garbage, total_pothole)`. -/
def historyTally (acc : Nat × Nat) (s : List (String × Nat)) : Nat × Nat :=
  s.foldl (fun a kv =>
    if hasGarbage kv.1 then (a.1 + kv.2, a.2)
    else if hasPothole kv.1 then (a.1, a.2 + kv.2)
    else a) acc

/-- The statistics loop of `history` (app.py lines 509–532): a falsy or
empty summary counts as a no-issue report, any other summary is tallied
with "garbage" tested first.  Returns
`((total_garbage, total_pothole), no_issue_reports)`. -/
def history_summary_stats (rows : List (Option (List (String × Nat)))) :
    (Nat × Nat) × Nat :=
  rows.foldl (fun acc so =>
    match so with
    | none => (acc.1, acc.2 + 1)
    | some [] => (acc.1, acc.2 + 1)
    | some s => (historyTally acc.1 s, acc.2)) ((0, 0), 0)

example : process_video_frames 1 [["pothole"], [], ["pothole", "garbage"]] =
    ([("pothole", 2), ("garbage", 1)], [0, 2]) := by decide
example : (process_video_frames 1 (List.replicate 12 ["pothole"])).2.length = 10 := by decide
example : lookupCount (process_video_frames 1 (List.replicate 12 ["pothole"])).1 "pothole" = 12 := by decide
example : sampledFrames 2 [["a"], ["b"], ["c"]] = [["a"], ["c"]] := by decide
example : predict_video [] 7 1 [["pothole"]] =
    ([mkVideoReport 7 (framePath 0) [("pothole", 1)]], some 7) := by decide
example : get_home_stats [some [("garbage_near_pothole", 1)]] = (1, 0) := by decide
example : history_summary_stats [some [("garbage_near_pothole", 1)]] = ((1, 0), 0) := by decide
example : history_summary_stats [none, some [], some [("pothole", 2)]] = ((0, 2), 2) := by decide
example : heatmap_points [potholeRow] = [] := by decide

example : hasPothole "deep_pothole" = true := by decide
example : hasPothole "large_garbage" = false := by decide
example : hasGarbage "large_garbage" = true := by decide
example : hasGarbage "garbage_near_pothole" = true := by decide
example : hasPothole "garbage_near_pothole" = true := by decide
example : predictDept [("large_garbage", 1), ("deep_pothole", 1)] = "Department of Environment" := by decide
example : predictDept [("deep_pothole", 1), ("large_garbage", 1)] = "Roads Department" := by decide
example : severityImage 2 = "Medium" := by decide
example : severityVideo 16 = "High" := by decide

/-! ## Severity thresholds (C2) -/

theorem severityImage_low (t : Nat) : severityImage t = "Low" ↔ t ≤ 1 := by
  unfold severityImage
  split_ifs with h1 h2
  · simp [h1]
  · simp [h1]
  · simp [h1]

theorem severityImage_medium (t : Nat) :
    severityImage t = "Medium" ↔ 2 ≤ t ∧ t ≤ 3 := by
  unfold severityImage
  split_ifs with h1 h2
  · constructor
    · intro h
      exact absurd h (by decide)
    · omega
  · constructor
    · intro _
      omega
    · intro _
      rfl
  · constructor
    · intro h
      exact absurd h (by decide)
    · omega

theorem severityImage_high (t : Nat) : severityImage t = "High" ↔ 3 < t := by
  unfold severityImage
  split_ifs with h1 h2
  · constructor
    · intro h
      exact absurd h (by decide)
    · omega
  · constructor
    · intro h
      exact absurd h (by decide)
    · omega
  · constructor
    · intro _
      omega
    · intro _
      rfl

theorem severityVideo_low (t : Nat) : severityVideo t = "Low" ↔ t ≤ 5 := by
  unfold severityVideo
  split_ifs with h1 h2
  · simp [h1]
  · simp [h1]
  · simp [h1]

theorem severityVideo_medium (t : Nat) :
    severityVideo t = "Medium" ↔ 6 ≤ t ∧ t ≤ 15 := by
  unfold severityVideo
  split_ifs with h1 h2
  · constructor
    · intro h
      exact absurd h (by decide)
    · omega
  · constructor
    · intro _
      omega
    · intro _
      rfl
  · constructor
    · intro h
      exact absurd h (by decide)
    · omega

theorem severityVideo_high (t : Nat) : severityVideo t = "High" ↔ 15 < t := by
  unfold severityVideo
  split_ifs with h1 h2
  · constructor
    · intro h
      exact absurd h (by decide)
    · omega
  · constructor
    · intro h
      exact absurd h (by decide)
    · omega
  · constructor
    · intro _
      omega
    · intro _
      rfl

/-- Claim C2: for every summary with total detection count `t`, the image
severity is "Low" iff `t ≤ 1`, "Medium" iff `2 ≤ t ≤ 3` and "High" iff
`t > 3`, and the video severity is "Low" iff `t ≤ 5`, "Medium" iff
`6 ≤ t ≤ 15` and "High" iff `t > 15`. -/
theorem severity_thresholds (s : List (String × Nat)) :
    (severityImage (totalIssues s) = "Low" ↔ totalIssues s ≤ 1) ∧
    (severityImage (totalIssues s) = "Medium" ↔ 2 ≤ totalIssues s ∧ totalIssues s ≤ 3) ∧
    (severityImage (totalIssues s) = "High" ↔ 3 < totalIssues s) ∧
    (severityVideo (totalIssues s) = "Low" ↔ totalIssues s ≤ 5) ∧
    (severityVideo (totalIssues s) = "Medium" ↔ 6 ≤ totalIssues s ∧ totalIssues s ≤ 15) ∧
    (severityVideo (totalIssues s) = "High" ↔ 15 < totalIssues s) :=
  ⟨severityImage_low _, severityImage_medium _, severityImage_high _,
    severityVideo_low _, severityVideo_medium _, severityVideo_high _⟩

/-! ## Department derivation (C1) -/

/-- Claim C1 counterexample: the summary with a "garbage"-matching key
stored first and a "pothole"-matching key second routes to "Department of
Environment", not to "Roads Department" as the claim states — the insert
loop is first-match-wins over the stored key order, not pothole-first. -/
theorem predictDept_garbage_first_cex :
    predictDept [("large_garbage", 1), ("deep_pothole", 1)] = "Department of Environment" ∧
    predictDept [("large_garbage", 1), ("deep_pothole", 1)] ≠ "Roads Department" := by
  decide

/-- Claim C1 as amended: the department used at image-report insert time is
first-match-wins over the summary keys in stored order — the first key
containing "pothole" or "garbage" decides (with "pothole" tested first on
that one key), and "General" results only when no key matches.  In
particular the two orderings of the mixed summary give the two different
departments. -/
theorem predictDept_first_match (s : List (String × Nat)) :
    predictDept s =
      (match s.find? (fun kv => hasPothole kv.1 || hasGarbage kv.1) with
        | none => "General"
        | some kv =>
          if hasPothole kv.1 then "Roads Department" else "Department of Environment") ∧
    predictDept [("large_garbage", 1), ("deep_pothole", 1)] = "Department of Environment" ∧
    predictDept [("deep_pothole", 1), ("large_garbage", 1)] = "Roads Department" := by
  refine ⟨?_, by decide, by decide⟩
  induction s with
  | nil => rfl
  | cons kv rest ih =>
    by_cases hp : hasPothole kv.1
    · simp [predictDept, List.find?_cons_of_pos, hp]
    · by_cases hg : hasGarbage kv.1
      · simp [predictDept, List.find?_cons_of_pos, hp, hg]
      · simpa [predictDept, List.find?_cons_of_neg, hp, hg] using ih

/-! ## Department backfill idempotence (C4) -/

theorem fixRow_idem (r : Report) : fixRow ((fixRow r).1) = fixRow r := by
  rcases h : r.summary with _ | s
  · simp [fixRow, h]
  · rcases hd : fixDept s with _ | d
    · simp [fixRow, h, hd]
    · simp [fixRow, h, hd]

/-- Claim C4 counterexample: on a table holding one report whose summary
contains a pothole key, the first backfill run reports one update, and the
second run — with no summary changed in between — again reports `1`, not
the `0` the claim states (every row whose recomputed department is
non-default is rewritten and counted on every run). -/
theorem fix_departments_second_run_cex :
    (fix_departments (fix_departments [potholeRow]).1).2 = 1 ∧
    (fix_departments (fix_departments [potholeRow]).1).2 ≠ 0 := by
  decide

/-- Claim C4 as amended: the backfill is idempotent in effect — a second
run leaves every department value as the first run set it — and its
reported count is reproduced, not zeroed: the second run reports the same
updated-row count as the first, because each run rewrites (and counts)
every row whose recomputed department is non-default whether or not the
stored value already matches. -/
theorem fix_departments_idempotent (db : List Report) :
    (fix_departments (fix_departments db).1).1 = (fix_departments db).1 ∧
    (fix_departments (fix_departments db).1).2 = (fix_departments db).2 := by
  unfold fix_departments
  simp only [List.map_map]
  constructor
  · apply List.map_congr_left
    intro r _
    simp only [Function.comp_apply]
    rw [fixRow_idem]
  · congr 1
    apply List.map_congr_left
    intro r _
    simp only [Function.comp_apply]
    rw [fixRow_idem]

/-! ## Insert-time department (C6) -/

/-- Claim C6 counterexample: a video-kind insert whose summary contains a
pothole key stores department "General" (the INSERT in `predict_video`
names no `department` column, so the column default applies), while the
department rule derives "Roads Department" from the same summary. -/
theorem video_insert_department_cex :
    (mkVideoReport 1 (framePath 0) [("pothole", 3)]).department = "General" ∧
    predictDept [("pothole", 3)] = "Roads Department" ∧
    (mkVideoReport 1 (framePath 0) [("pothole", 3)]).department ≠
      predictDept [("pothole", 3)] := by
  decide

/-- Claim C6 as amended: at insert time an image-kind row's stored
department equals what the department rule produces from its stored
summary, but a video-kind row always stores the column default "General",
whatever its summary. -/
theorem insert_department (rid : Nat) (path : String) (s : List (String × Nat))
    (la lo : FormField) :
    (mkImageReport rid path s la lo).department = predictDept s ∧
    (mkVideoReport rid path s).department = "General" :=
  ⟨rfl, rfl⟩

/-! ## Feedback validation (C5) -/

/-- Claim C5 counterexample: a feedback request with a valid value and a
report id that exists nowhere in the (empty) table is answered with the
success response, not rejected — the UPDATE simply matches no row.  (No
row is mutated, but the claim requires an error response.) -/
theorem feedback_missing_id_cex :
    feedbackRoute [] (some 1) (some "correct") = ([], true) ∧
    (feedbackRoute [] (some 1) (some "correct")).2 ≠ false := by
  decide

/-- Claim C5 as amended: a request whose feedback value is outside
(correct, incorrect) or whose report id is missing (or 0, which is falsy)
is rejected with an error response and mutates nothing; a request with a
valid value and a truthy id is answered with success even when no stored
row has that id — in that case nothing is mutated — and when a row does
have the id, exactly the rows with that id get the feedback overwritten
while every other row is untouched. -/
theorem feedback_validation (db : List Report) (rido : Option Nat) (vo : Option String) :
    ((ridTruthy rido && validFeedback vo) = false →
      feedbackRoute db rido vo = (db, false)) ∧
    ((ridTruthy rido && validFeedback vo) = true →
      (feedbackRoute db rido vo).2 = true ∧
      ((∀ r ∈ db, r.rid ≠ rido.getD 0) → (feedbackRoute db rido vo).1 = db) ∧
      (∀ r ∈ db, r.rid ≠ rido.getD 0 → r ∈ (feedbackRoute db rido vo).1) ∧
      (∀ r ∈ db, r.rid = rido.getD 0 →
        { r with feedback := some (vo.getD "") } ∈ (feedbackRoute db rido vo).1)) := by
  constructor
  · intro h
    simp [feedbackRoute, h]
  · intro h
    refine ⟨by simp [feedbackRoute, h], ?_, ?_, ?_⟩
    · intro hnone
      simp only [feedbackRoute, h, if_true]
      have : db.map (setFeedback (vo.getD "") (rido.getD 0)) = db.map id := by
        apply List.map_congr_left
        intro r hr
        simp [setFeedback, hnone r hr]
      simp [this]
    · intro r hr hne
      simp only [feedbackRoute, h, if_true]
      have : setFeedback (vo.getD "") (rido.getD 0) r = r := by
        simp [setFeedback, hne]
      exact this ▸ List.mem_map_of_mem _ hr
    · intro r hr heq
      simp only [feedbackRoute, h, if_true]
      have : setFeedback (vo.getD "") (rido.getD 0) r =
          { r with feedback := some (vo.getD "") } := by
        simp [setFeedback, heq]
      exact this ▸ List.mem_map_of_mem _ hr

/-! ## Heatmap points (C7) -/

/-- A stored row at latitude 0 (the equator) with a nonzero longitude:
both coordinates are present. -/
def zeroLatRow : Report :=
  { potholeRow with rid := 2, latitude := some 0, longitude := some 10 }

theorem heatStep_fold (rows : List Report) (acc : List (ℚ × ℚ × ℚ)) :
    rows.foldl heatStep acc = acc ++ rows.filterMap heatPoint := by
  induction rows generalizing acc with
  | nil => simp
  | cons r rest ih =>
    by_cases h : (optTruthy r.latitude && optTruthy r.longitude) = true
    · simp [heatStep, heatPoint, h, ih, List.filterMap_cons]
    · simp [heatStep, heatPoint, h, ih, List.filterMap_cons]

/-- Claim C7 counterexample: a report whose latitude and longitude are both
present but whose latitude is `0` emits no heatmap point — the
`if latitude and longitude` test uses Python truthiness, and `0.0` is
falsy. -/
theorem heatmap_zero_latitude_cex :
    zeroLatRow.latitude.isSome = true ∧
    zeroLatRow.longitude.isSome = true ∧
    heatmap_points [zeroLatRow] = [] := by
  decide

/-- Claim C7 as amended: the history computation emits exactly one heatmap
point `(latitude, longitude, weight)` for every report whose latitude and
longitude are both present AND nonzero (a report with a missing — or zero —
coordinate emits none), with weight 0.5 for "Low", 1.0 for "Medium" and 2.0
for "High" severity. -/
theorem heatmap_points_characterization (rows : List Report) :
    heatmap_points rows = rows.filterMap heatPoint ∧
    heatWeight "Low" = 1/2 ∧ heatWeight "Medium" = 1 ∧ heatWeight "High" = 2 := by
  refine ⟨?_, by simp [heatWeight], by simp [heatWeight], by simp [heatWeight]⟩
  simpa using heatStep_fold rows []

/-! ## Coordinate invariant (C8) -/

/-- Claim C8 counterexample: a `predict` submission supplying only a valid
latitude (the longitude field missing) is stored with exactly one
coordinate present. -/
theorem image_single_coordinate_cex :
    (mkImageReport 1 "p.png" [("pothole", 1)] (.value 5) .missing).latitude = some 5 ∧
    (mkImageReport 1 "p.png" [("pothole", 1)] (.value 5) .missing).longitude = none := by
  decide

/-- Claim C8 as amended: the inserted image report has both coordinates
present or both absent in every case EXCEPT when exactly one field is
supplied with a value that parses and the other is missing; a non-numeric
value in either field does discard both coordinates. -/
theorem coordinate_invariant (rid : Nat) (path : String) (s : List (String × Nat))
    (la lo : FormField) :
    (((mkImageReport rid path s la lo).latitude.isSome =
        (mkImageReport rid path s la lo).longitude.isSome) ↔
      ¬ ((∃ q, la = .value q) ∧ lo = .missing ∨
         la = .missing ∧ (∃ q, lo = .value q))) ∧
    parseLocation .invalid lo = (none, none) ∧
    parseLocation la .invalid = (none, none) := by
  cases la <;> cases lo <;>
    simp [mkImageReport, parseLocation, fieldVal, fieldRaises]

/-! ## Frame sampler cap and aggregate count (C3) -/

theorem addDetection_lookup (s : List (String × Nat)) (c k : String) :
    lookupCount (addDetection s c) k = lookupCount s k + if c = k then 1 else 0 := by
  induction s with
  | nil => simp [addDetection, lookupCount]
  | cons kv rest ih =>
    obtain ⟨k1, v⟩ := kv
    by_cases h1 : k1 = c
    · subst h1
      by_cases h2 : k1 = k
      · subst h2
        simp [addDetection, lookupCount]
      · simp [addDetection, lookupCount, h2]
    · by_cases h2 : k1 = k
      · subst h2
        have hck : ¬ c = k1 := fun hh => h1 hh.symm
        simp [addDetection, lookupCount, h1, hck]
      · simp [addDetection, lookupCount, h1, h2, ih]

theorem addFrame_lookup (dets : List String) (s : List (String × Nat)) (k : String) :
    lookupCount (addFrame s dets) k = lookupCount s k + dets.count k := by
  induction dets generalizing s with
  | nil => simp [addFrame]
  | cons c ds ih =>
    simp only [addFrame, List.foldl_cons] at *
    rw [ih, addDetection_lookup, List.count_cons]
    by_cases h : c = k
    · simp [h]
      omega
    · simp [h]

theorem processSampled_total (l : List (Nat × List String)) (total : List (String × Nat))
    (keys : List Nat) (saved : Nat) :
    (processSampled l total keys saved).1 =
      l.foldl (fun t p => addFrame t p.2) total := by
  induction l generalizing total keys saved with
  | nil => rfl
  | cons p rest ih =>
    obtain ⟨i, dets⟩ := p
    simp only [processSampled, List.foldl_cons]
    split_ifs with h
    · exact ih ..
    · exact ih ..

theorem foldl_addFrame_lookup (l : List (Nat × List String)) (total : List (String × Nat))
    (k : String) :
    lookupCount (l.foldl (fun t p => addFrame t p.2) total) k =
      lookupCount total k + (l.map (fun p => p.2.count k)).sum := by
  induction l generalizing total with
  | nil => simp
  | cons p rest ih =>
    simp only [List.foldl_cons, List.map_cons, List.sum_cons, ih, addFrame_lookup]
    omega

theorem withIdx_map_snd (i : Nat) (l : List α) (f : α → β) :
    (withIdx i l).map (fun p => f p.2) = l.map f := by
  induction l generalizing i with
  | nil => rfl
  | cons a t ih => simp [withIdx, ih]

theorem processSampled_keys (l : List (Nat × List String)) (total : List (String × Nat))
    (keys : List Nat) (saved : Nat) :
    (processSampled l total keys saved).2 = keys ++ (qualIdx l).take (10 - saved) := by
  induction l generalizing total keys saved with
  | nil => simp [processSampled, qualIdx]
  | cons p rest ih =>
    obtain ⟨i, dets⟩ := p
    by_cases hd : dets = []
    · simp only [processSampled, qualIdx, hd]
      simpa using ih ..
    · by_cases hs : saved < 10
      · simp only [processSampled, qualIdx, if_pos (And.intro hd hs), if_neg hd]
        rw [ih]
        have h10 : 10 - saved = (10 - (saved + 1)) + 1 := by omega
        rw [h10, List.take_succ_cons]
        simp
      · have hcond : ¬ (dets ≠ [] ∧ saved < 10) := fun hh => hs hh.2
        simp only [processSampled, qualIdx, if_neg hcond, if_neg hd]
        rw [ih]
        have h10 : 10 - saved = 0 := by omega
        simp [h10]

/-- Claim C3: the video frame sampler saves the first 10 qualifying sampled
frames (those with at least one detection, in detection order) as
keyframes — exactly 10 when more than 10 qualify, all of them when 10 or
fewer qualify — while the returned total summary counts, key by key, the
detections of every sampled frame, including frames past the save cap. -/
theorem frame_sampler_cap (fps : Nat) (frames : List (List String)) :
    (process_video_frames fps frames).2 =
      (qualIdx (withIdx 0 (sampledFrames fps frames))).take 10 ∧
    (∀ k, lookupCount (process_video_frames fps frames).1 k =
      ((sampledFrames fps frames).map (fun dets => dets.count k)).sum) ∧
    (10 < (qualIdx (withIdx 0 (sampledFrames fps frames))).length →
      (process_video_frames fps frames).2.length = 10) ∧
    ((qualIdx (withIdx 0 (sampledFrames fps frames))).length ≤ 10 →
      (process_video_frames fps frames).2 = qualIdx (withIdx 0 (sampledFrames fps frames))) := by
  have hkeys : (process_video_frames fps frames).2 =
      (qualIdx (withIdx 0 (sampledFrames fps frames))).take 10 := by
    unfold process_video_frames
    simpa using processSampled_keys ..
  refine ⟨hkeys, ?_, ?_, ?_⟩
  · intro k
    unfold process_video_frames
    rw [processSampled_total, foldl_addFrame_lookup,
      withIdx_map_snd 0 (sampledFrames fps frames) (fun dets => dets.count k)]
    simp [lookupCount]
  · intro hlen
    rw [hkeys, List.length_take]
    omega
  · intro hlen
    rw [hkeys]
    exact List.take_of_length_le hlen

/-- Witness for the frame-sampler claim at a concrete 12-frame video with a
detection in every sampled frame: more than 10 frames qualify, exactly 10
keyframes are recorded, and the total still counts all 12 detections. -/
theorem frame_sampler_cap_witness :
    10 < (qualIdx (withIdx 0 (sampledFrames 1 (List.replicate 12 ["pothole"])))).length ∧
    (process_video_frames 1 (List.replicate 12 ["pothole"])).2.length = 10 ∧
    lookupCount (process_video_frames 1 (List.replicate 12 ["pothole"])).1 "pothole" = 12 := by
  refine ⟨by decide, ?_, by decide⟩
  exact (frame_sampler_cap 1 (List.replicate 12 ["pothole"])).2.2.1 (by decide)

/-! ## Video report persistence (C9) -/

theorem withIdx_mem_snd (i : Nat) (l : List α) (p : Nat × α) (hp : p ∈ withIdx i l) :
    p.2 ∈ l := by
  induction l generalizing i with
  | nil => cases hp
  | cons a t ih =>
    simp only [withIdx, List.mem_cons] at hp
    rcases hp with rfl | hp
    · simp
    · simp [ih _ hp]

theorem qualIdx_all_empty (i : Nat) (l : List (List String))
    (h : ∀ d ∈ l, d = []) :
    qualIdx (withIdx i l) = [] := by
  induction l generalizing i with
  | nil => rfl
  | cons d t ih =>
    have hd : d = [] := h d (by simp)
    simp only [withIdx, qualIdx, if_pos hd]
    exact ih _ (fun d2 hd2 => h d2 (by simp [hd2]))

theorem foldl_addFrame_all_empty (l : List (Nat × List String)) (t : List (String × Nat))
    (h : ∀ p ∈ l, p.2 = []) :
    l.foldl (fun t p => addFrame t p.2) t = t := by
  induction l generalizing t with
  | nil => rfl
  | cons p rest ih =>
    have hp : p.2 = [] := h p (by simp)
    simp only [List.foldl_cons, hp, addFrame, List.foldl_nil]
    exact ih _ (fun q hq => h q (by simp [hq]))

/-- Claim C9: `predict_video` inserts a video-kind report row exactly when
the keyframe list is non-empty, with the first keyframe's path as the row's
`image_path`; a video whose sampled frames all lack detections yields an
empty summary, an empty keyframe list, and an unchanged table with a `none`
report id (not an error). -/
theorem video_report_persistence (db : List Report) (nextId fps : Nat)
    (frames : List (List String)) :
    ((predict_video db nextId fps frames).2.isSome = true ↔
      (process_video_frames fps frames).2 ≠ []) ∧
    ((process_video_frames fps frames).2 = [] →
      predict_video db nextId fps frames = (db, none)) ∧
    (∀ k0 ks, (process_video_frames fps frames).2 = k0 :: ks →
      (predict_video db nextId fps frames).1 =
        db ++ [mkVideoReport nextId (framePath k0)
          (process_video_frames fps frames).1]) ∧
    ((∀ dets ∈ sampledFrames fps frames, dets = []) →
      (process_video_frames fps frames).1 = [] ∧
      (process_video_frames fps frames).2 = []) := by
  refine ⟨?_, ?_, ?_, ?_⟩
  · rcases hk : (process_video_frames fps frames).2 with _ | ⟨k0, ks⟩
    · simp [predict_video, hk]
    · simp [predict_video, hk]
  · intro hk
    simp [predict_video, hk]
  · intro k0 ks hk
    simp [predict_video, hk]
  · intro h
    constructor
    · unfold process_video_frames
      rw [processSampled_total]
      exact foldl_addFrame_all_empty _ _
        (fun p hp => h p.2 (withIdx_mem_snd 0 _ p hp))
    · unfold process_video_frames
      rw [processSampled_keys, qualIdx_all_empty 0 _ h]
      simp

/-- Witness for the video-persistence claim at a one-frame video with one
pothole detection: the single keyframe is saved and the inserted row takes
its path. -/
theorem video_report_persistence_witness :
    (process_video_frames 1 [["pothole"]]).2 = 0 :: [] ∧
    (predict_video [] 1 1 [["pothole"]]).1 =
      [] ++ [mkVideoReport 1 (framePath 0) (process_video_frames 1 [["pothole"]]).1] :=
  ⟨by decide, (video_report_persistence [] 1 1 [["pothole"]]).2.2.1 0 [] (by decide)⟩

/-! ## Homepage versus history statistics (C10) -/

theorem homeTally_cons (acc : Nat × Nat) (kv : String × Nat) (rest : List (String × Nat)) :
    homeTally acc (kv :: rest) =
      homeTally (if hasPothole kv.1 then (acc.1 + kv.2, acc.2)
        else if hasGarbage kv.1 then (acc.1, acc.2 + kv.2) else acc) rest := rfl

theorem historyTally_cons (acc : Nat × Nat) (kv : String × Nat) (rest : List (String × Nat)) :
    historyTally acc (kv :: rest) =
      historyTally (if hasGarbage kv.1 then (acc.1 + kv.2, acc.2)
        else if hasPothole kv.1 then (acc.1, acc.2 + kv.2) else acc) rest := rfl

/-- On a summary none of whose keys matches both substrings, the history
tally (garbage first) is the swap of the homepage tally (pothole first). -/
theorem tally_swap (s : List (String × Nat)) (p g : Nat)
    (h : ∀ kv ∈ s, ¬(hasPothole kv.1 = true ∧ hasGarbage kv.1 = true)) :
    historyTally (g, p) s = ((homeTally (p, g) s).2, (homeTally (p, g) s).1) := by
  induction s generalizing p g with
  | nil => simp [homeTally, historyTally]
  | cons kv rest ih =>
    have hkv := h kv (by simp)
    have hrest : ∀ kv2 ∈ rest, ¬(hasPothole kv2.1 = true ∧ hasGarbage kv2.1 = true) :=
      fun kv2 h2 => h kv2 (by simp [h2])
    rw [homeTally_cons, historyTally_cons]
    by_cases hp : hasPothole kv.1
    · have hg : hasGarbage kv.1 = false := by
        rcases Bool.eq_false_or_eq_true (hasGarbage kv.1) with hg | hg
        · exact absurd ⟨hp, hg⟩ hkv
        · exact hg
      simp only [hp, hg, if_true, if_false, Bool.false_eq_true]
      exact ih (p + kv.2) g hrest
    · by_cases hg : hasGarbage kv.1
      · simp only [hp, hg, if_true, if_false, Bool.false_eq_true]
        exact ih p (g + kv.2) hrest
      · simp only [hp, hg, if_false, Bool.false_eq_true]
        exact ih p g hrest

theorem stats_fold_swap (rows : List (Option (List (String × Nat)))) (p g n : Nat)
    (h : ∀ so ∈ rows, ∀ kv ∈ so.getD [],
      ¬(hasPothole kv.1 = true ∧ hasGarbage kv.1 = true)) :
    (rows.foldl (fun acc so =>
        match so with
        | none => (acc.1, acc.2 + 1)
        | some [] => (acc.1, acc.2 + 1)
        | some s => (historyTally acc.1 s, acc.2)) ((g, p), n)).1 =
      ((rows.foldl (fun acc so =>
        match so with
        | none => acc
        | some s => homeTally acc s) (p, g)).2,
       (rows.foldl (fun acc so =>
        match so with
        | none => acc
        | some s => homeTally acc s) (p, g)).1) := by
  induction rows generalizing p g n with
  | nil => rfl
  | cons so rest ih =>
    have hrest : ∀ so2 ∈ rest, ∀ kv ∈ so2.getD [],
        ¬(hasPothole kv.1 = true ∧ hasGarbage kv.1 = true) :=
      fun so2 h2 => h so2 (by simp [h2])
    rcases so with _ | s
    · simp only [List.foldl_cons]
      exact ih p g (n + 1) hrest
    · rcases s with _ | ⟨kv, s2⟩
      · simp only [List.foldl_cons, homeTally, List.foldl_nil]
        exact ih p g (n + 1) hrest
      · simp only [List.foldl_cons]
        rw [tally_swap (kv :: s2) p g (fun kv2 h2 => h (some (kv :: s2)) (by simp) kv2 h2)]
        exact ih (homeTally (p, g) (kv :: s2)).1 (homeTally (p, g) (kv :: s2)).2 n hrest

/-- Claim C10: the homepage statistics test "pothole" before "garbage" on
each summary key while the history statistics test "garbage" before
"pothole"; on any history in which no key contains both substrings the two
computations agree on both totals, but the key "garbage_near_pothole"
(which contains both) is counted as potholes by the homepage and as
garbage by the history. -/
theorem stats_check_order (rows : List (Option (List (String × Nat)))) :
    ((∀ so ∈ rows, ∀ kv ∈ so.getD [],
        ¬(hasPothole kv.1 = true ∧ hasGarbage kv.1 = true)) →
      (get_home_stats rows).1 = (history_summary_stats rows).1.2 ∧
      (get_home_stats rows).2 = (history_summary_stats rows).1.1) ∧
    hasPothole "garbage_near_pothole" = true ∧
    hasGarbage "garbage_near_pothole" = true ∧
    get_home_stats [some [("garbage_near_pothole", 1)]] = (1, 0) ∧
    (history_summary_stats [some [("garbage_near_pothole", 1)]]).1 = (1, 0) := by
  refine ⟨?_, by decide, by decide, by decide, by decide⟩
  intro h
  have hs := stats_fold_swap rows 0 0 0 h
  unfold get_home_stats history_summary_stats
  constructor
  · rw [hs]
  · rw [hs]

/-- Witness for the statistics-agreement claim at the concrete history
(pothole 2, empty summary, garbage 1), where no key matches both
substrings: both computations report 2 potholes and 1 garbage. -/
theorem stats_check_order_witness :
    (get_home_stats [some [("pothole", 2)], none, some [("garbage", 1)]]).1 =
      (history_summary_stats [some [("pothole", 2)], none, some [("garbage", 1)]]).1.2 ∧
    (get_home_stats [some [("pothole", 2)], none, some [("garbage", 1)]]).2 =
      (history_summary_stats [some [("pothole", 2)], none, some [("garbage", 1)]]).1.1 :=
  (stats_check_order [some [("pothole", 2)], none, some [("garbage", 1)]]).1 (by decide)

/-- Witness for the feedback claim at a concrete one-row table: a valid
value with the existing id 1 succeeds and overwrites that row's
feedback. -/
theorem feedback_validation_witness :
    (ridTruthy (some 1) && validFeedback (some "correct")) = true ∧
    (feedbackRoute [potholeRow] (some 1) (some "correct")).2 = true ∧
    { potholeRow with feedback := some "correct" } ∈
      (feedbackRoute [potholeRow] (some 1) (some "correct")).1 :=
  ⟨by decide,
    ((feedback_validation [potholeRow] (some 1) (some "correct")).2 (by decide)).1,
    ((feedback_validation [potholeRow] (some 1) (some "correct")).2 (by decide)).2.2.2
      potholeRow (by decide) (by decide)⟩
